import Mathlib

/-!
Verification of the `terraform_kb4_module_structure` rule
(`rules/terraform_kb4_file_structure.go` of kb4sre/tflint-ruleset-kb4).

The Go rule talks to an external `tflint.Runner` (the module-content
accessor and diagnostic emitter).  We embed the rule shallowly:

* the runner is a record of its two queries (`GetFiles`,
  `GetModuleContent`), each returning `Except` like the fallible Go calls;
* `EmitIssue` is fire-and-forget in Go, so each check is modelled as a
  pure function returning the list of diagnostics it emitted, in order;
* Go's panic on an out-of-range slice index (`Labels[0]` on an empty
  label list) is modelled explicitly by the `RunResult.panic` constructor,
  carrying the diagnostics emitted before the panic.
-/

/-- `hcl.Pos` (Line, Column, Byte). -/
structure Pos where
  line : Nat
  column : Nat
  byte : Nat
deriving DecidableEq, Repr

/-- `hcl.InitialPos` = Pos{Byte: 0, Line: 1, Column: 1}. -/
def initialPos : Pos := { line := 1, column := 1, byte := 0 }

/-- The zero value of `hcl.Pos`, used for a Range whose End is not set. -/
def zeroPos : Pos := { line := 0, column := 0, byte := 0 }

/-- `hcl.Range` (Filename, Start, End).  `End` is a Lean keyword, so the
field is named `endPos`. -/
structure Range where
  filename : String
  start : Pos
  endPos : Pos
deriving DecidableEq, Repr

/-- `hclext.Block` as read by the rule: its `Type`, its `Labels`, the
`Name` field read by `checkTerraformRemoteState`'s message, and its
`DefRange`. -/
structure Block where
  type : String
  name : String
  labels : List String
  defRange : Range
deriving DecidableEq, Repr

/-- A diagnostic as passed to `runner.EmitIssue`: message and range.
(The rule argument of `EmitIssue` is always the receiver and carries no
information.) -/
structure Diagnostic where
  message : String
  range : Range
deriving DecidableEq, Repr

/-- `hclext.BlockSchema`: a block type plus its label names. -/
structure BlockSchema where
  type : String
  labelNames : List String
deriving DecidableEq, Repr

/-- `hclext.BodySchema`: the list of block schemas requested. -/
structure BodySchema where
  blocks : List BlockSchema
deriving DecidableEq, Repr

/-- `tflint.Runner` restricted to the two queries the rule performs.
`getFiles` models `GetFiles`' `map[string]*hcl.File` by the set (list) of
file names that map to a non-nil file; `getModuleContent` models
`GetModuleContent(schema, nil)`. -/
structure Runner where
  getFiles : Except String (List String)
  getModuleContent : BodySchema → Except String (List Block)

/-- Outcome of running one check (or the whole rule):
`ok err diags` — the function returned `err` (`none` models Go `nil`)
after emitting `diags`; `panic diags` — the function hit a Go runtime
panic (out-of-range slice index) after emitting `diags`. -/
inductive RunResult where
  | ok : Option String → List Diagnostic → RunResult
  | panic : List Diagnostic → RunResult
deriving DecidableEq, Repr

/-- The diagnostics emitted by a run, panic or not. -/
def emitted : RunResult → List Diagnostic
  | RunResult.ok _ ds => ds
  | RunResult.panic ds => ds

/-- Whether a run ended in a panic. -/
def isPanic : RunResult → Bool
  | RunResult.ok _ _ => false
  | RunResult.panic _ => true

/-- `EXPECTED_FILES` from the source. -/
def EXPECTED_FILES : List String := ["_init.tf", "_variables.tf", "_outputs.tf", "_locals.tf"]

/-- The range `hcl.Range{Filename: name, Start: hcl.InitialPos}` built by
`checkFiles` (End left at its zero value). -/
def missingFileRange (name : String) : Range :=
  { filename := name, start := initialPos, endPos := zeroPos }

/-- The diagnostic `checkFiles` emits for a missing expected file. -/
def missingFileDiag (name : String) : Diagnostic :=
  { message := "Module should include a " ++ name ++ " file.",
    range := missingFileRange name }

/-- `checkFiles`: query the file set; on error return it; otherwise emit
one diagnostic per expected file absent from the set, in
`EXPECTED_FILES` order. -/
def checkFiles (r : Runner) : RunResult :=
  match r.getFiles with
  | Except.error e => RunResult.ok (some e) []
  | Except.ok files =>
      RunResult.ok none
        (EXPECTED_FILES.filterMap (fun name =>
          if files.contains name then none else some (missingFileDiag name)))

/-- The schema `checkVariables` requests: `variable` blocks with one
label `name`. -/
def variableSchema : BodySchema :=
  { blocks := [{ type := "variable", labelNames := ["name"] }] }

/-- The diagnostic `checkVariables` emits for a misplaced variable block
(`fmt.Sprintf` with verbs `%q`, `%s`, `%s`). -/
def variableDiag (label : String) (rg : Range) : Diagnostic :=
  { message := "variable \"" ++ label ++ "\" should be moved from " ++
      rg.filename ++ " to " ++ "_variables.tf",
    range := rg }

/-- The loop of `checkVariables`: for each block not in `_variables.tf`,
format the message (reading `Labels[0]`, which panics when the label list
is empty) and emit. -/
def variablesEmit : List Block → RunResult
  | [] => RunResult.ok none []
  | b :: rest =>
      if b.defRange.filename != "_variables.tf" then
        match b.labels.get? 0 with
        | none => RunResult.panic []
        | some l =>
            match variablesEmit rest with
            | RunResult.ok e ds => RunResult.ok e (variableDiag l b.defRange :: ds)
            | RunResult.panic ds => RunResult.panic (variableDiag l b.defRange :: ds)
      else variablesEmit rest

/-- `checkVariables`. -/
def checkVariables (r : Runner) : RunResult :=
  match r.getModuleContent variableSchema with
  | Except.error e => RunResult.ok (some e) []
  | Except.ok blocks => variablesEmit blocks

/-- The schema `checkOutputs` requests. -/
def outputSchema : BodySchema :=
  { blocks := [{ type := "output", labelNames := ["name"] }] }

/-- The diagnostic `checkOutputs` emits for a misplaced output block. -/
def outputDiag (label : String) (rg : Range) : Diagnostic :=
  { message := "output \"" ++ label ++ "\" should be moved from " ++
      rg.filename ++ " to " ++ "_outputs.tf",
    range := rg }

/-- The loop of `checkOutputs`. -/
def outputsEmit : List Block → RunResult
  | [] => RunResult.ok none []
  | b :: rest =>
      if b.defRange.filename != "_outputs.tf" then
        match b.labels.get? 0 with
        | none => RunResult.panic []
        | some l =>
            match outputsEmit rest with
            | RunResult.ok e ds => RunResult.ok e (outputDiag l b.defRange :: ds)
            | RunResult.panic ds => RunResult.panic (outputDiag l b.defRange :: ds)
      else outputsEmit rest

/-- `checkOutputs`. -/
def checkOutputs (r : Runner) : RunResult :=
  match r.getModuleContent outputSchema with
  | Except.error e => RunResult.ok (some e) []
  | Except.ok blocks => outputsEmit blocks

/-- The schema `checkProviders` requests. -/
def providerSchema : BodySchema :=
  { blocks := [{ type := "provider", labelNames := ["name"] }] }

/-- The diagnostic `checkProviders` emits for a misplaced provider block. -/
def providerDiag (label : String) (rg : Range) : Diagnostic :=
  { message := "provider \"" ++ label ++ "\" should be moved from " ++
      rg.filename ++ " to " ++ "_init.tf",
    range := rg }

/-- The loop of `checkProviders`. -/
def providersEmit : List Block → RunResult
  | [] => RunResult.ok none []
  | b :: rest =>
      if b.defRange.filename != "_init.tf" then
        match b.labels.get? 0 with
        | none => RunResult.panic []
        | some l =>
            match providersEmit rest with
            | RunResult.ok e ds => RunResult.ok e (providerDiag l b.defRange :: ds)
            | RunResult.panic ds => RunResult.panic (providerDiag l b.defRange :: ds)
      else providersEmit rest

/-- `checkProviders`. -/
def checkProviders (r : Runner) : RunResult :=
  match r.getModuleContent providerSchema with
  | Except.error e => RunResult.ok (some e) []
  | Except.ok blocks => providersEmit blocks

/-- The schema `checkTerraformBlock` requests: `terraform` blocks with no
label names. -/
def terraformSchema : BodySchema :=
  { blocks := [{ type := "terraform", labelNames := [] }] }

/-- The diagnostic `checkTerraformBlock` would emit for a misplaced
terraform block. -/
def terraformDiag (label : String) (rg : Range) : Diagnostic :=
  { message := "terraform block \"" ++ label ++ "\" should be moved from " ++
      rg.filename ++ " to " ++ "_init.tf",
    range := rg }

/-- The loop of `checkTerraformBlock`.  The message formats
`terraformBlock.Labels[0]` even though the schema declares no labels, so
a misplaced block with an empty label list panics before emitting. -/
def terraformEmit : List Block → RunResult
  | [] => RunResult.ok none []
  | b :: rest =>
      if b.defRange.filename != "_init.tf" then
        match b.labels.get? 0 with
        | none => RunResult.panic []
        | some l =>
            match terraformEmit rest with
            | RunResult.ok e ds => RunResult.ok e (terraformDiag l b.defRange :: ds)
            | RunResult.panic ds => RunResult.panic (terraformDiag l b.defRange :: ds)
      else terraformEmit rest

/-- `checkTerraformBlock`. -/
def checkTerraformBlock (r : Runner) : RunResult :=
  match r.getModuleContent terraformSchema with
  | Except.error e => RunResult.ok (some e) []
  | Except.ok blocks => terraformEmit blocks

/-- The schema `checkLocals` requests: `locals` blocks with no label
names. -/
def localsSchema : BodySchema :=
  { blocks := [{ type := "locals", labelNames := [] }] }

/-- The diagnostic `checkLocals` would emit for a misplaced locals
block. -/
def localsDiag (label : String) (rg : Range) : Diagnostic :=
  { message := "locals block \"" ++ label ++ "\" should be moved from " ++
      rg.filename ++ " to " ++ "_init.tf",
    range := rg }

/-- The loop of `checkLocals`; like `checkTerraformBlock` it reads
`locals.Labels[0]` on blocks whose schema declares no labels. -/
def localsEmit : List Block → RunResult
  | [] => RunResult.ok none []
  | b :: rest =>
      if b.defRange.filename != "_init.tf" then
        match b.labels.get? 0 with
        | none => RunResult.panic []
        | some l =>
            match localsEmit rest with
            | RunResult.ok e ds => RunResult.ok e (localsDiag l b.defRange :: ds)
            | RunResult.panic ds => RunResult.panic (localsDiag l b.defRange :: ds)
      else localsEmit rest

/-- `checkLocals`. -/
def checkLocals (r : Runner) : RunResult :=
  match r.getModuleContent localsSchema with
  | Except.error e => RunResult.ok (some e) []
  | Except.ok blocks => localsEmit blocks

/-- The schema `checkTerraformRemoteState` requests: `data` blocks with
one label `name`. -/
def dataSchema : BodySchema :=
  { blocks := [{ type := "data", labelNames := ["name"] }] }

/-- The diagnostic `checkTerraformRemoteState` would emit (message uses
the block's `Name` field). -/
def remoteStateDiag (name : String) (rg : Range) : Diagnostic :=
  { message := "data terraform_remote_state \"" ++ name ++ "\" should be moved from " ++
      rg.filename ++ " to " ++ "_init.tf",
    range := rg }

/-- The loop of `checkTerraformRemoteState`: a block outside `_init.tf`
is reported only when its `Type` field equals `terraform_remote_state`. -/
def remoteStateEmit : List Block → RunResult
  | [] => RunResult.ok none []
  | b :: rest =>
      if b.defRange.filename != "_init.tf" then
        if b.type == "terraform_remote_state" then
          match remoteStateEmit rest with
          | RunResult.ok e ds => RunResult.ok e (remoteStateDiag b.name b.defRange :: ds)
          | RunResult.panic ds => RunResult.panic (remoteStateDiag b.name b.defRange :: ds)
        else remoteStateEmit rest
      else remoteStateEmit rest

/-- `checkTerraformRemoteState`. -/
def checkTerraformRemoteState (r : Runner) : RunResult :=
  match r.getModuleContent dataSchema with
  | Except.error e => RunResult.ok (some e) []
  | Except.ok blocks => remoteStateEmit blocks

/-- Sequencing inside `Check`: the returned error of a completed
sub-check is discarded (the Go driver ignores every return value), its
diagnostics are kept; a panic propagates, aborting the rest. -/
def afterOk (ds : List Diagnostic) : RunResult → RunResult
  | RunResult.ok _ ds2 => RunResult.ok none (ds ++ ds2)
  | RunResult.panic ds2 => RunResult.panic (ds ++ ds2)

/-- Run a list of checks in order under the driver's discipline:
discard returned errors, accumulate diagnostics, propagate panics;
return Go `nil` (`none`) at the end, as `Check` does. -/
def driverRun : List (Runner → RunResult) → Runner → RunResult
  | [], _ => RunResult.ok none []
  | c :: cs, r =>
      match c r with
      | RunResult.ok _ ds => afterOk ds (driverRun cs r)
      | RunResult.panic ds => RunResult.panic ds

/-- The sub-checks of `Check`, in source order. -/
def checkList : List (Runner → RunResult) :=
  [checkFiles, checkVariables, checkOutputs, checkProviders,
   checkTerraformBlock, checkLocals, checkTerraformRemoteState]

/-- `Check`: runs every sub-check in order, ignoring each returned
error, and returns `nil`. -/
def Check (r : Runner) : RunResult :=
  driverRun checkList r

/-! ### Helper lemmas about the driver -/

/-- A non-panicking run is an `ok` carrying its emitted diagnostics. -/
lemma eq_ok_of_not_panic (x : RunResult) (h : isPanic x = false) :
    ∃ e, x = RunResult.ok e (emitted x) := by
  cases x with
  | ok e ds => exact ⟨e, rfl⟩
  | panic ds => simp [isPanic] at h

/-- The driver either completes with `nil` or propagates a panic. -/
lemma driverRun_shape (cs : List (Runner → RunResult)) (r : Runner) :
    (∃ ds, driverRun cs r = RunResult.ok none ds) ∨
    (∃ ds, driverRun cs r = RunResult.panic ds) := by
  induction cs with
  | nil => exact Or.inl ⟨[], rfl⟩
  | cons c cs ih =>
      cases hc : c r with
      | ok e ds =>
          rcases ih with ⟨ds2, h2⟩ | ⟨ds2, h2⟩
          · exact Or.inl ⟨ds ++ ds2, by simp [driverRun, hc, h2, afterOk]⟩
          · exact Or.inr ⟨ds ++ ds2, by simp [driverRun, hc, h2, afterOk]⟩
      | panic ds => exact Or.inr ⟨ds, by simp [driverRun, hc]⟩

/-- A sub-check that returns (any error) without emitting anything is
invisible to the driver. -/
lemma driverRun_skip (c : Runner → RunResult) (cs : List (Runner → RunResult))
    (r : Runner) (e : Option String) (h : c r = RunResult.ok e []) :
    driverRun (c :: cs) r = driverRun cs r := by
  rcases driverRun_shape cs r with ⟨ds, h2⟩ | ⟨ds, h2⟩ <;>
    simp [driverRun, h, h2, afterOk]

/-- `driverRun_skip` anywhere in the list. -/
lemma driverRun_skip_mid (pre : List (Runner → RunResult))
    (c : Runner → RunResult) (post : List (Runner → RunResult))
    (r : Runner) (e : Option String) (h : c r = RunResult.ok e []) :
    driverRun (pre ++ c :: post) r = driverRun (pre ++ post) r := by
  induction pre with
  | nil => simpa using driverRun_skip c post r e h
  | cons p pre ih =>
      cases hp : p r with
      | ok e2 ds => simp [driverRun, hp, ih]
      | panic ds => simp [driverRun, hp]

/-! ### Helper lemmas about the per-kind emit loops -/

/-- Variables all in `_variables.tf` emit nothing. -/
lemma variablesEmit_wellPlaced (bs : List Block)
    (h : ∀ b ∈ bs, b.defRange.filename = "_variables.tf") :
    variablesEmit bs = RunResult.ok none [] := by
  induction bs with
  | nil => rfl
  | cons b rest ih =>
      have hb := h b (List.mem_cons_self b rest)
      have hrest := ih (fun x hx => h x (List.mem_cons_of_mem b hx))
      simp [variablesEmit, hb, hrest]

/-- Characterization of the variables loop on blocks carrying one label:
one diagnostic per misplaced block, at the block's own range, in input
order. -/
lemma variablesEmit_eq (bs : List Block)
    (h : ∀ b ∈ bs, b.labels.length = 1) :
    variablesEmit bs = RunResult.ok none
      ((bs.filter (fun b => b.defRange.filename != "_variables.tf")).map
        (fun b => variableDiag (b.labels.headD "") b.defRange)) := by
  induction bs with
  | nil => rfl
  | cons b rest ih =>
      have hb := h b (List.mem_cons_self b rest)
      have hrest := ih (fun x hx => h x (List.mem_cons_of_mem b hx))
      obtain ⟨l, ls, hbl⟩ : ∃ l ls, b.labels = l :: ls := by
        cases hbl2 : b.labels with
        | nil => rw [hbl2] at hb; simp at hb
        | cons l ls => exact ⟨l, ls, rfl⟩
      by_cases hf : b.defRange.filename = "_variables.tf"
      · simp [variablesEmit, hf, hrest, List.filter_cons]
      · simp [variablesEmit, hf, hrest, hbl, List.filter_cons]

/-- Outputs all in `_outputs.tf` emit nothing. -/
lemma outputsEmit_wellPlaced (bs : List Block)
    (h : ∀ b ∈ bs, b.defRange.filename = "_outputs.tf") :
    outputsEmit bs = RunResult.ok none [] := by
  induction bs with
  | nil => rfl
  | cons b rest ih =>
      have hb := h b (List.mem_cons_self b rest)
      have hrest := ih (fun x hx => h x (List.mem_cons_of_mem b hx))
      simp [outputsEmit, hb, hrest]

/-- Characterization of the outputs loop on blocks carrying one label. -/
lemma outputsEmit_eq (bs : List Block)
    (h : ∀ b ∈ bs, b.labels.length = 1) :
    outputsEmit bs = RunResult.ok none
      ((bs.filter (fun b => b.defRange.filename != "_outputs.tf")).map
        (fun b => outputDiag (b.labels.headD "") b.defRange)) := by
  induction bs with
  | nil => rfl
  | cons b rest ih =>
      have hb := h b (List.mem_cons_self b rest)
      have hrest := ih (fun x hx => h x (List.mem_cons_of_mem b hx))
      obtain ⟨l, ls, hbl⟩ : ∃ l ls, b.labels = l :: ls := by
        cases hbl2 : b.labels with
        | nil => rw [hbl2] at hb; simp at hb
        | cons l ls => exact ⟨l, ls, rfl⟩
      by_cases hf : b.defRange.filename = "_outputs.tf"
      · simp [outputsEmit, hf, hrest, List.filter_cons]
      · simp [outputsEmit, hf, hrest, hbl, List.filter_cons]

/-- Providers all in `_init.tf` emit nothing. -/
lemma providersEmit_wellPlaced (bs : List Block)
    (h : ∀ b ∈ bs, b.defRange.filename = "_init.tf") :
    providersEmit bs = RunResult.ok none [] := by
  induction bs with
  | nil => rfl
  | cons b rest ih =>
      have hb := h b (List.mem_cons_self b rest)
      have hrest := ih (fun x hx => h x (List.mem_cons_of_mem b hx))
      simp [providersEmit, hb, hrest]

/-- Characterization of the providers loop on blocks carrying one label. -/
lemma providersEmit_eq (bs : List Block)
    (h : ∀ b ∈ bs, b.labels.length = 1) :
    providersEmit bs = RunResult.ok none
      ((bs.filter (fun b => b.defRange.filename != "_init.tf")).map
        (fun b => providerDiag (b.labels.headD "") b.defRange)) := by
  induction bs with
  | nil => rfl
  | cons b rest ih =>
      have hb := h b (List.mem_cons_self b rest)
      have hrest := ih (fun x hx => h x (List.mem_cons_of_mem b hx))
      obtain ⟨l, ls, hbl⟩ : ∃ l ls, b.labels = l :: ls := by
        cases hbl2 : b.labels with
        | nil => rw [hbl2] at hb; simp at hb
        | cons l ls => exact ⟨l, ls, rfl⟩
      by_cases hf : b.defRange.filename = "_init.tf"
      · simp [providersEmit, hf, hrest, List.filter_cons]
      · simp [providersEmit, hf, hrest, hbl, List.filter_cons]

/-- Terraform blocks all in `_init.tf` emit nothing (and do not panic). -/
lemma terraformEmit_wellPlaced (bs : List Block)
    (h : ∀ b ∈ bs, b.defRange.filename = "_init.tf") :
    terraformEmit bs = RunResult.ok none [] := by
  induction bs with
  | nil => rfl
  | cons b rest ih =>
      have hb := h b (List.mem_cons_self b rest)
      have hrest := ih (fun x hx => h x (List.mem_cons_of_mem b hx))
      simp [terraformEmit, hb, hrest]

/-- Locals blocks all in `_init.tf` emit nothing (and do not panic). -/
lemma localsEmit_wellPlaced (bs : List Block)
    (h : ∀ b ∈ bs, b.defRange.filename = "_init.tf") :
    localsEmit bs = RunResult.ok none [] := by
  induction bs with
  | nil => rfl
  | cons b rest ih =>
      have hb := h b (List.mem_cons_self b rest)
      have hrest := ih (fun x hx => h x (List.mem_cons_of_mem b hx))
      simp [localsEmit, hb, hrest]

/-- Data blocks all in `_init.tf` emit nothing. -/
lemma remoteStateEmit_wellPlaced (bs : List Block)
    (h : ∀ b ∈ bs, b.defRange.filename = "_init.tf") :
    remoteStateEmit bs = RunResult.ok none [] := by
  induction bs with
  | nil => rfl
  | cons b rest ih =>
      have hb := h b (List.mem_cons_self b rest)
      have hrest := ih (fun x hx => h x (List.mem_cons_of_mem b hx))
      simp [remoteStateEmit, hb, hrest]

/-- Blocks whose `Type` field is never `terraform_remote_state` make the
remote-state loop emit nothing, wherever they live. -/
lemma remoteStateEmit_no_remote (bs : List Block)
    (h : ∀ b ∈ bs, b.type ≠ "terraform_remote_state") :
    remoteStateEmit bs = RunResult.ok none [] := by
  induction bs with
  | nil => rfl
  | cons b rest ih =>
      have hb := h b (List.mem_cons_self b rest)
      have hrest := ih (fun x hx => h x (List.mem_cons_of_mem b hx))
      by_cases hf : b.defRange.filename = "_init.tf"
      · simp [remoteStateEmit, hf, hrest]
      · simp [remoteStateEmit, hf, hb, hrest]

/-- Keeping exactly the absent names, `filterMap` of an if-then-else is
filter-then-map. -/
lemma filterMap_absent (files : List String) (ns : List String) :
    ns.filterMap (fun name =>
        if files.contains name then none else some (missingFileDiag name)) =
      (ns.filter (fun name => !(files.contains name))).map missingFileDiag := by
  induction ns with
  | nil => rfl
  | cons n ns ih =>
      by_cases hn : n ∈ files
      · simpa [List.filterMap_cons, List.filter_cons, hn] using ih
      · simpa [List.filterMap_cons, List.filter_cons, hn] using ih

/-- The file-presence diagnostics, as filter-then-map. -/
lemma checkFiles_eq (r : Runner) (files : List String)
    (h : r.getFiles = Except.ok files) :
    checkFiles r = RunResult.ok none
      ((EXPECTED_FILES.filter (fun name => !(files.contains name))).map missingFileDiag) := by
  unfold checkFiles
  rw [h]
  exact congrArg (RunResult.ok none) (filterMap_absent files EXPECTED_FILES)

/-! ### Concrete inputs and claim theorems -/

/-- A `variable "x"` block declared in `main.tf`. -/
def vBlockMain : Block :=
  { type := "variable", name := "x", labels := ["x"],
    defRange := { filename := "main.tf", start := { line := 1, column := 1, byte := 0 },
                  endPos := { line := 1, column := 13, byte := 12 } } }

/-- A runner whose `GetFiles` fails while every block query succeeds;
the module has one misplaced variable. -/
def cexR1 : Runner where
  getFiles := Except.error "boom"
  getModuleContent := fun s =>
    if s = variableSchema then Except.ok [vBlockMain] else Except.ok []

/-- C1: the claim says a failing `GetFiles` aborts the remaining checks
and the error is returned to the caller.  Counterexample: with `GetFiles`
failing, `Check` still runs the later checks (it emits the misplaced
variable's diagnostic) and returns `nil`, not the error. -/
theorem C1_counterexample :
    cexR1.getFiles = Except.error "boom" ∧
    Check cexR1 = RunResult.ok none [variableDiag "x" vBlockMain.defRange] :=
  ⟨rfl, rfl⟩

/-- C1 (amended): a failing query makes the failing check itself return
the error at once, emitting nothing; but `Check` discards the returned
error, runs all remaining checks unchanged, and returns `nil`. -/
theorem C1_amended_driver_swallows_query_error (r : Runner) (e : String)
    (h : r.getFiles = Except.error e) :
    checkFiles r = RunResult.ok (some e) [] ∧
    Check r = driverRun [checkVariables, checkOutputs, checkProviders,
      checkTerraformBlock, checkLocals, checkTerraformRemoteState] r := by
  have hcf : checkFiles r = RunResult.ok (some e) [] := by
    unfold checkFiles; rw [h]
  exact ⟨hcf, driverRun_skip checkFiles _ r (some e) hcf⟩

/-- Witness for the amended C1 at the concrete runner `cexR1`. -/
theorem C1_amended_witness :
    checkFiles cexR1 = RunResult.ok (some "boom") [] ∧
    Check cexR1 = driverRun [checkVariables, checkOutputs, checkProviders,
      checkTerraformBlock, checkLocals, checkTerraformRemoteState] cexR1 :=
  C1_amended_driver_swallows_query_error cexR1 "boom" rfl

/-- C2: a failing block query for one declaration kind makes only that
check return early; `Check` still runs every other check, exactly as if
the failing one were absent. -/
theorem C2_no_short_circuit (r : Runner) :
    (∀ e, r.getModuleContent variableSchema = Except.error e →
      checkVariables r = RunResult.ok (some e) [] ∧
      Check r = driverRun [checkFiles, checkOutputs, checkProviders,
        checkTerraformBlock, checkLocals, checkTerraformRemoteState] r) ∧
    (∀ e, r.getModuleContent outputSchema = Except.error e →
      checkOutputs r = RunResult.ok (some e) [] ∧
      Check r = driverRun [checkFiles, checkVariables, checkProviders,
        checkTerraformBlock, checkLocals, checkTerraformRemoteState] r) ∧
    (∀ e, r.getModuleContent providerSchema = Except.error e →
      checkProviders r = RunResult.ok (some e) [] ∧
      Check r = driverRun [checkFiles, checkVariables, checkOutputs,
        checkTerraformBlock, checkLocals, checkTerraformRemoteState] r) ∧
    (∀ e, r.getModuleContent terraformSchema = Except.error e →
      checkTerraformBlock r = RunResult.ok (some e) [] ∧
      Check r = driverRun [checkFiles, checkVariables, checkOutputs,
        checkProviders, checkLocals, checkTerraformRemoteState] r) ∧
    (∀ e, r.getModuleContent localsSchema = Except.error e →
      checkLocals r = RunResult.ok (some e) [] ∧
      Check r = driverRun [checkFiles, checkVariables, checkOutputs,
        checkProviders, checkTerraformBlock, checkTerraformRemoteState] r) ∧
    (∀ e, r.getModuleContent dataSchema = Except.error e →
      checkTerraformRemoteState r = RunResult.ok (some e) [] ∧
      Check r = driverRun [checkFiles, checkVariables, checkOutputs,
        checkProviders, checkTerraformBlock, checkLocals] r) := by
  refine ⟨?_, ?_, ?_, ?_, ?_, ?_⟩
  · intro e he
    have hc : checkVariables r = RunResult.ok (some e) [] := by
      unfold checkVariables; rw [he]
    exact ⟨hc, driverRun_skip_mid [checkFiles] checkVariables
      [checkOutputs, checkProviders, checkTerraformBlock, checkLocals,
        checkTerraformRemoteState] r (some e) hc⟩
  · intro e he
    have hc : checkOutputs r = RunResult.ok (some e) [] := by
      unfold checkOutputs; rw [he]
    exact ⟨hc, driverRun_skip_mid [checkFiles, checkVariables] checkOutputs
      [checkProviders, checkTerraformBlock, checkLocals,
        checkTerraformRemoteState] r (some e) hc⟩
  · intro e he
    have hc : checkProviders r = RunResult.ok (some e) [] := by
      unfold checkProviders; rw [he]
    exact ⟨hc, driverRun_skip_mid [checkFiles, checkVariables, checkOutputs]
      checkProviders [checkTerraformBlock, checkLocals,
        checkTerraformRemoteState] r (some e) hc⟩
  · intro e he
    have hc : checkTerraformBlock r = RunResult.ok (some e) [] := by
      unfold checkTerraformBlock; rw [he]
    exact ⟨hc, driverRun_skip_mid [checkFiles, checkVariables, checkOutputs,
      checkProviders] checkTerraformBlock [checkLocals,
        checkTerraformRemoteState] r (some e) hc⟩
  · intro e he
    have hc : checkLocals r = RunResult.ok (some e) [] := by
      unfold checkLocals; rw [he]
    exact ⟨hc, driverRun_skip_mid [checkFiles, checkVariables, checkOutputs,
      checkProviders, checkTerraformBlock] checkLocals
      [checkTerraformRemoteState] r (some e) hc⟩
  · intro e he
    have hc : checkTerraformRemoteState r = RunResult.ok (some e) [] := by
      unfold checkTerraformRemoteState; rw [he]
    exact ⟨hc, driverRun_skip_mid [checkFiles, checkVariables, checkOutputs,
      checkProviders, checkTerraformBlock, checkLocals]
      checkTerraformRemoteState [] r (some e) hc⟩

/-- An `output "y"` block declared in `_variables.tf`. -/
def oBlockWrong : Block :=
  { type := "output", name := "y", labels := ["y"],
    defRange := { filename := "_variables.tf", start := { line := 5, column := 1, byte := 60 },
                  endPos := { line := 5, column := 11, byte := 70 } } }

/-- A runner whose variable query fails while the other checks find a
misplaced output. -/
def cexR2 : Runner where
  getFiles := Except.ok ["_init.tf", "_variables.tf", "_outputs.tf", "_locals.tf"]
  getModuleContent := fun s =>
    if s = variableSchema then Except.error "vfail"
    else if s = outputSchema then Except.ok [oBlockWrong]
    else Except.ok []

/-- Witness for C2 at `cexR2`: the variable query fails, yet the output
check still runs and reports its misplaced block. -/
theorem C2_witness :
    (checkVariables cexR2 = RunResult.ok (some "vfail") [] ∧
      Check cexR2 = driverRun [checkFiles, checkOutputs, checkProviders,
        checkTerraformBlock, checkLocals, checkTerraformRemoteState] cexR2) ∧
    Check cexR2 = RunResult.ok none [outputDiag "y" oBlockWrong.defRange] :=
  ⟨(C2_no_short_circuit cexR2).1 "vfail" rfl, rfl⟩

/-- The `data "terraform_remote_state" "z"` block of the claim's
scenario, as returned by the accessor for the `data` schema: its `Type`
field holds the schema's block type, `data`. -/
def zBlockOutputs : Block :=
  { type := "data", name := "z", labels := ["z"],
    defRange := { filename := "_outputs.tf", start := { line := 2, column := 1, byte := 10 },
                  endPos := { line := 2, column := 35, byte := 44 } } }

/-- The `data "aws_ami" "w"` block of the same scenario. -/
def wBlockOutputs : Block :=
  { type := "data", name := "w", labels := ["w"],
    defRange := { filename := "_outputs.tf", start := { line := 7, column := 1, byte := 90 },
                  endPos := { line := 7, column := 20, byte := 109 } } }

/-- The claim's failing scenario: all required files exist and the data
query returns the two data blocks living in `_outputs.tf`. -/
def cexR3 : Runner where
  getFiles := Except.ok ["_init.tf", "_variables.tf", "_outputs.tf", "_locals.tf"]
  getModuleContent := fun s =>
    if s = dataSchema then Except.ok [zBlockOutputs, wBlockOutputs] else Except.ok []

/-- C3: at the claim's own scenario (a `terraform_remote_state` data
block and an `aws_ami` data block, both in the outputs file) the code
emits no diagnostic at all — the expected diagnostic for `z` never
appears, because the check compares the block's `Type` field (always
`data`) with `terraform_remote_state`. -/
theorem C3_code_emits_nothing_at_failing_input :
    checkTerraformRemoteState cexR3 = RunResult.ok none [] ∧
    Check cexR3 = RunResult.ok none [] :=
  ⟨rfl, rfl⟩

/-- A label-less `terraform {}` settings block declared in `main.tf`. -/
def tBlockMain : Block :=
  { type := "terraform", name := "", labels := [],
    defRange := { filename := "main.tf", start := { line := 3, column := 1, byte := 20 },
                  endPos := { line := 3, column := 10, byte := 29 } } }

/-- A runner whose terraform-settings query returns the misplaced
label-less block; everything else is in order. -/
def cexR4 : Runner where
  getFiles := Except.ok ["_init.tf", "_variables.tf", "_outputs.tf", "_locals.tf"]
  getModuleContent := fun s =>
    if s = terraformSchema then Except.ok [tBlockMain] else Except.ok []

/-- C4: a misplaced label-less `terraform` block does not get a
diagnostic with an empty label — the check reads `Labels[0]` on the
empty label list and panics before emitting anything, and the panic
aborts the whole rule run. -/
theorem C4_code_panics_at_failing_input :
    checkTerraformBlock cexR4 = RunResult.panic [] ∧
    Check cexR4 = RunResult.panic [] :=
  ⟨rfl, rfl⟩

/-- A label-less `terraform {}` settings block declared in `foo.tf`. -/
def tBlockFoo : Block :=
  { type := "terraform", name := "", labels := [],
    defRange := { filename := "foo.tf", start := { line := 1, column := 1, byte := 0 },
                  endPos := { line := 1, column := 10, byte := 9 } } }

/-- A runner exposing one misplaced SettingsBlock-kind block. -/
def cexR5 : Runner where
  getFiles := Except.ok ["_init.tf", "_variables.tf", "_outputs.tf", "_locals.tf"]
  getModuleContent := fun s =>
    if s = terraformSchema then Except.ok [tBlockFoo] else Except.ok []

/-- C5: the claim quantifies over every DeclarationKind, but a misplaced
block of kind SettingsBlock yields no diagnostic at all: the check
panics on `Labels[0]` instead of emitting exactly one diagnostic at the
block's DefRange. -/
theorem C5_counterexample :
    checkTerraformBlock cexR5 = RunResult.panic [] ∧
    emitted (checkTerraformBlock cexR5) = [] :=
  ⟨rfl, rfl⟩

/-- C5 (amended, restricted to the labeled kinds Variable, Output and
Provider): every misplaced block yields exactly one diagnostic located
at the block's own DefRange, one per block in input order with no
deduplication, so N misplaced blocks yield N diagnostics. -/
theorem C5_amended_labeled_checks_exact (r : Runner)
    (bv bo bp : List Block)
    (hv : r.getModuleContent variableSchema = Except.ok bv)
    (hv1 : ∀ b ∈ bv, b.labels.length = 1)
    (ho : r.getModuleContent outputSchema = Except.ok bo)
    (ho1 : ∀ b ∈ bo, b.labels.length = 1)
    (hp : r.getModuleContent providerSchema = Except.ok bp)
    (hp1 : ∀ b ∈ bp, b.labels.length = 1) :
    checkVariables r = RunResult.ok none
      ((bv.filter (fun b => b.defRange.filename != "_variables.tf")).map
        (fun b => variableDiag (b.labels.headD "") b.defRange)) ∧
    checkOutputs r = RunResult.ok none
      ((bo.filter (fun b => b.defRange.filename != "_outputs.tf")).map
        (fun b => outputDiag (b.labels.headD "") b.defRange)) ∧
    checkProviders r = RunResult.ok none
      ((bp.filter (fun b => b.defRange.filename != "_init.tf")).map
        (fun b => providerDiag (b.labels.headD "") b.defRange)) := by
  refine ⟨?_, ?_, ?_⟩
  · unfold checkVariables; rw [hv]; exact variablesEmit_eq bv hv1
  · unfold checkOutputs; rw [ho]; exact outputsEmit_eq bo ho1
  · unfold checkProviders; rw [hp]; exact providersEmit_eq bp hp1

/-- Two misplaced variables, one well-placed variable. -/
def w5vars : List Block :=
  [{ type := "variable", name := "a", labels := ["a"],
     defRange := { filename := "main.tf", start := { line := 1, column := 1, byte := 0 },
                   endPos := { line := 1, column := 13, byte := 12 } } },
   { type := "variable", name := "ok", labels := ["ok"],
     defRange := { filename := "_variables.tf", start := { line := 1, column := 1, byte := 0 },
                   endPos := { line := 1, column := 14, byte := 13 } } },
   { type := "variable", name := "b", labels := ["b"],
     defRange := { filename := "main.tf", start := { line := 4, column := 1, byte := 40 },
                   endPos := { line := 4, column := 13, byte := 52 } } }]

/-- One misplaced output. -/
def w5outs : List Block :=
  [{ type := "output", name := "y", labels := ["y"],
     defRange := { filename := "main.tf", start := { line := 8, column := 1, byte := 80 },
                   endPos := { line := 8, column := 11, byte := 90 } } }]

/-- One misplaced provider. -/
def w5provs : List Block :=
  [{ type := "provider", name := "aws", labels := ["aws"],
     defRange := { filename := "providers.tf", start := { line := 1, column := 1, byte := 0 },
                   endPos := { line := 1, column := 15, byte := 14 } } }]

/-- A runner exposing the three labeled kinds with misplaced blocks. -/
def w5runner : Runner where
  getFiles := Except.ok ["_init.tf", "_variables.tf", "_outputs.tf", "_locals.tf"]
  getModuleContent := fun s =>
    if s = variableSchema then Except.ok w5vars
    else if s = outputSchema then Except.ok w5outs
    else if s = providerSchema then Except.ok w5provs
    else Except.ok []

/-- Witness for the amended C5 at `w5runner`: two of three variables are
misplaced and exactly two diagnostics result, at the blocks' own
ranges. -/
theorem C5_amended_witness :
    (∀ b ∈ w5vars, b.labels.length = 1) ∧
    (checkVariables w5runner = RunResult.ok none
      ((w5vars.filter (fun b => b.defRange.filename != "_variables.tf")).map
        (fun b => variableDiag (b.labels.headD "") b.defRange)) ∧
    checkOutputs w5runner = RunResult.ok none
      ((w5outs.filter (fun b => b.defRange.filename != "_outputs.tf")).map
        (fun b => outputDiag (b.labels.headD "") b.defRange)) ∧
    checkProviders w5runner = RunResult.ok none
      ((w5provs.filter (fun b => b.defRange.filename != "_init.tf")).map
        (fun b => providerDiag (b.labels.headD "") b.defRange))) :=
  ⟨by decide,
   C5_amended_labeled_checks_exact w5runner w5vars w5outs w5provs
     rfl (by decide) rfl (by decide) rfl (by decide)⟩

/-- If no sub-check panics, the driver completes with the concatenation
of all sub-check diagnostics, in list order. -/
lemma driverRun_no_panic (cs : List (Runner → RunResult)) (r : Runner)
    (h : ∀ c ∈ cs, isPanic (c r) = false) :
    driverRun cs r =
      RunResult.ok none (cs.foldr (fun c acc => emitted (c r) ++ acc) []) := by
  induction cs with
  | nil => rfl
  | cons c cs ih =>
      have hc := h c (List.mem_cons_self c cs)
      have hrest := ih (fun x hx => h x (List.mem_cons_of_mem c hx))
      cases hcr : c r with
      | ok e ds => simp [driverRun, hcr, afterOk, hrest, emitted]
      | panic ds => rw [hcr] at hc; simp [isPanic] at hc

/-- C6: blocks of every declaration kind that sit in their expected file
produce zero diagnostics — for each of the six structural checks,
correctly placed content (of any amount) yields a silent, non-panicking
run. -/
theorem C6_wellplaced_silent (r : Runner)
    (bv bo bp bt bl bd : List Block)
    (hv : r.getModuleContent variableSchema = Except.ok bv)
    (hvp : ∀ b ∈ bv, b.defRange.filename = "_variables.tf")
    (ho : r.getModuleContent outputSchema = Except.ok bo)
    (hop : ∀ b ∈ bo, b.defRange.filename = "_outputs.tf")
    (hp : r.getModuleContent providerSchema = Except.ok bp)
    (hpp : ∀ b ∈ bp, b.defRange.filename = "_init.tf")
    (ht : r.getModuleContent terraformSchema = Except.ok bt)
    (htp : ∀ b ∈ bt, b.defRange.filename = "_init.tf")
    (hl : r.getModuleContent localsSchema = Except.ok bl)
    (hlp : ∀ b ∈ bl, b.defRange.filename = "_init.tf")
    (hd : r.getModuleContent dataSchema = Except.ok bd)
    (hdp : ∀ b ∈ bd, b.defRange.filename = "_init.tf") :
    checkVariables r = RunResult.ok none [] ∧
    checkOutputs r = RunResult.ok none [] ∧
    checkProviders r = RunResult.ok none [] ∧
    checkTerraformBlock r = RunResult.ok none [] ∧
    checkLocals r = RunResult.ok none [] ∧
    checkTerraformRemoteState r = RunResult.ok none [] := by
  refine ⟨?_, ?_, ?_, ?_, ?_, ?_⟩
  · unfold checkVariables; rw [hv]; exact variablesEmit_wellPlaced bv hvp
  · unfold checkOutputs; rw [ho]; exact outputsEmit_wellPlaced bo hop
  · unfold checkProviders; rw [hp]; exact providersEmit_wellPlaced bp hpp
  · unfold checkTerraformBlock; rw [ht]; exact terraformEmit_wellPlaced bt htp
  · unfold checkLocals; rw [hl]; exact localsEmit_wellPlaced bl hlp
  · unfold checkTerraformRemoteState; rw [hd]; exact remoteStateEmit_wellPlaced bd hdp

/-- One well-placed block of each declaration kind (the settings, locals
and data blocks in `_init.tf`; the settings and locals blocks carry no
label). -/
def w6vars : List Block :=
  [{ type := "variable", name := "x", labels := ["x"],
     defRange := { filename := "_variables.tf", start := { line := 1, column := 1, byte := 0 },
                   endPos := { line := 1, column := 13, byte := 12 } } }]

def w6outs : List Block :=
  [{ type := "output", name := "y", labels := ["y"],
     defRange := { filename := "_outputs.tf", start := { line := 1, column := 1, byte := 0 },
                   endPos := { line := 1, column := 11, byte := 10 } } }]

def w6provs : List Block :=
  [{ type := "provider", name := "aws", labels := ["aws"],
     defRange := { filename := "_init.tf", start := { line := 1, column := 1, byte := 0 },
                   endPos := { line := 1, column := 15, byte := 14 } } }]

def w6settings : List Block :=
  [{ type := "terraform", name := "", labels := [],
     defRange := { filename := "_init.tf", start := { line := 4, column := 1, byte := 30 },
                   endPos := { line := 4, column := 10, byte := 39 } } }]

def w6locals : List Block :=
  [{ type := "locals", name := "", labels := [],
     defRange := { filename := "_init.tf", start := { line := 9, column := 1, byte := 70 },
                   endPos := { line := 9, column := 7, byte := 76 } } }]

def w6data : List Block :=
  [{ type := "data", name := "z", labels := ["z"],
     defRange := { filename := "_init.tf", start := { line := 14, column := 1, byte := 120 },
                   endPos := { line := 14, column := 35, byte := 154 } } }]

/-- A runner where every kind has one block, all in the expected file. -/
def w6runner : Runner where
  getFiles := Except.ok ["_init.tf", "_variables.tf", "_outputs.tf", "_locals.tf"]
  getModuleContent := fun s =>
    if s = variableSchema then Except.ok w6vars
    else if s = outputSchema then Except.ok w6outs
    else if s = providerSchema then Except.ok w6provs
    else if s = terraformSchema then Except.ok w6settings
    else if s = localsSchema then Except.ok w6locals
    else if s = dataSchema then Except.ok w6data
    else Except.ok []

/-- Witness for C6 at `w6runner`. -/
theorem C6_witness :
    (∀ b ∈ w6vars, b.defRange.filename = "_variables.tf") ∧
    (checkVariables w6runner = RunResult.ok none [] ∧
    checkOutputs w6runner = RunResult.ok none [] ∧
    checkProviders w6runner = RunResult.ok none [] ∧
    checkTerraformBlock w6runner = RunResult.ok none [] ∧
    checkLocals w6runner = RunResult.ok none [] ∧
    checkTerraformRemoteState w6runner = RunResult.ok none []) :=
  ⟨by decide,
   C6_wellplaced_silent w6runner w6vars w6outs w6provs w6settings w6locals w6data
     rfl (by decide) rfl (by decide) rfl (by decide)
     rfl (by decide) rfl (by decide) rfl (by decide)⟩

/-- C7: with a successful file query, the file-presence check emits one
diagnostic per absent required file, in `EXPECTED_FILES` order, each
located at the initial position of the missing file; with all four files
present it emits none. -/
theorem C7_file_presence (r : Runner) (files : List String)
    (h : r.getFiles = Except.ok files) :
    checkFiles r = RunResult.ok none
      ((EXPECTED_FILES.filter (fun name => !(files.contains name))).map missingFileDiag) ∧
    (∀ d ∈ emitted (checkFiles r), d.range.start = initialPos) ∧
    ((∀ f ∈ EXPECTED_FILES, files.contains f) → checkFiles r = RunResult.ok none []) := by
  have he := checkFiles_eq r files h
  refine ⟨he, ?_, ?_⟩
  · intro d hd
    have hemit : emitted (checkFiles r) =
        (EXPECTED_FILES.filter (fun name => !(files.contains name))).map missingFileDiag := by
      rw [he]; rfl
    rw [hemit] at hd
    obtain ⟨n, hn, hdn⟩ := List.mem_map.mp hd
    rw [← hdn]
    rfl
  · intro hall
    rw [he]
    have hnil : EXPECTED_FILES.filter (fun name => !(files.contains name)) = [] := by
      rw [List.filter_eq_nil_iff]
      intro a ha
      simpa using hall a ha
    rw [hnil]
    rfl

/-- A runner with only the init file among the required files present. -/
def w7runner : Runner where
  getFiles := Except.ok ["_init.tf", "main.tf"]
  getModuleContent := fun _ => Except.ok []

/-- Witness for C7 at `w7runner`: three required files are absent. -/
theorem C7_witness :
    checkFiles w7runner = RunResult.ok none
      ((EXPECTED_FILES.filter (fun name => !(List.contains ["_init.tf", "main.tf"] name))).map
        missingFileDiag) ∧
    (∀ d ∈ emitted (checkFiles w7runner), d.range.start = initialPos) ∧
    ((∀ f ∈ EXPECTED_FILES, List.contains ["_init.tf", "main.tf"] f) →
      checkFiles w7runner = RunResult.ok none []) :=
  C7_file_presence w7runner ["_init.tf", "main.tf"] rfl

/-- C8: on a run in which no sub-check panics, `Check` executes the
file-presence check first and then the six structural checks in the
fixed source order (Variable, Output, Provider, SettingsBlock,
LocalsBlock, RemoteStateData), and the emitted diagnostics are exactly
each check's diagnostics concatenated in that order. -/
theorem C8_check_order (r : Runner)
    (h1 : isPanic (checkFiles r) = false)
    (h2 : isPanic (checkVariables r) = false)
    (h3 : isPanic (checkOutputs r) = false)
    (h4 : isPanic (checkProviders r) = false)
    (h5 : isPanic (checkTerraformBlock r) = false)
    (h6 : isPanic (checkLocals r) = false)
    (h7 : isPanic (checkTerraformRemoteState r) = false) :
    Check r = RunResult.ok none
      (emitted (checkFiles r) ++ emitted (checkVariables r) ++
       emitted (checkOutputs r) ++ emitted (checkProviders r) ++
       emitted (checkTerraformBlock r) ++ emitted (checkLocals r) ++
       emitted (checkTerraformRemoteState r)) := by
  have hmem : ∀ c ∈ checkList, isPanic (c r) = false := by
    intro c hc
    simp only [checkList, List.mem_cons, List.not_mem_nil, or_false] at hc
    rcases hc with rfl | rfl | rfl | rfl | rfl | rfl | rfl <;> assumption
  have h := driverRun_no_panic checkList r hmem
  show driverRun checkList r = _
  rw [h]
  simp [checkList, List.append_assoc]

/-- A `variable "x"` block in `main.tf`, used by the C8 witness. -/
def w8var : Block :=
  { type := "variable", name := "x", labels := ["x"],
    defRange := { filename := "main.tf", start := { line := 2, column := 1, byte := 10 },
                  endPos := { line := 2, column := 13, byte := 22 } } }

/-- A runner missing `_locals.tf` and holding one misplaced variable. -/
def w8runner : Runner where
  getFiles := Except.ok ["_init.tf", "_variables.tf", "_outputs.tf", "main.tf"]
  getModuleContent := fun s =>
    if s = variableSchema then Except.ok [w8var] else Except.ok []

/-- Witness for C8 at `w8runner`: the file-presence diagnostic precedes
the variable-placement diagnostic. -/
theorem C8_witness :
    isPanic (checkFiles w8runner) = false ∧
    Check w8runner = RunResult.ok none
      (emitted (checkFiles w8runner) ++ emitted (checkVariables w8runner) ++
       emitted (checkOutputs w8runner) ++ emitted (checkProviders w8runner) ++
       emitted (checkTerraformBlock w8runner) ++ emitted (checkLocals w8runner) ++
       emitted (checkTerraformRemoteState w8runner)) :=
  ⟨by decide,
   C8_check_order w8runner (by decide) (by decide) (by decide) (by decide)
     (by decide) (by decide) (by decide)⟩

/-- C9: whenever the accessor honours the requested `data` schema (every
returned block's `Type` field is the schema's block type `data`), the
remote-state check emits nothing and cannot panic: its guard compares
that `Type` field with `terraform_remote_state`, so the emission branch
is unreachable. -/
theorem C9_remote_state_unreachable (r : Runner)
    (h : ∀ blocks, r.getModuleContent dataSchema = Except.ok blocks →
      ∀ b ∈ blocks, b.type = "data") :
    emitted (checkTerraformRemoteState r) = [] ∧
    isPanic (checkTerraformRemoteState r) = false := by
  cases hq : r.getModuleContent dataSchema with
  | error e =>
      unfold checkTerraformRemoteState
      rw [hq]
      exact ⟨rfl, rfl⟩
  | ok blocks =>
      have hno : ∀ b ∈ blocks, b.type ≠ "terraform_remote_state" := by
        intro b hb
        rw [h blocks hq b hb]
        decide
      have hce : checkTerraformRemoteState r = remoteStateEmit blocks := by
        unfold checkTerraformRemoteState
        rw [hq]
      rw [hce, remoteStateEmit_no_remote blocks hno]
      exact ⟨rfl, rfl⟩

/-- A remote-state-style data block in the outputs file, with the `Type`
field the accessor actually produces. -/
def w9block : Block :=
  { type := "data", name := "z", labels := ["z"],
    defRange := { filename := "_outputs.tf", start := { line := 2, column := 1, byte := 10 },
                  endPos := { line := 2, column := 35, byte := 44 } } }

/-- A runner returning `w9block` for the data query. -/
def w9runner : Runner where
  getFiles := Except.ok ["_init.tf", "_variables.tf", "_outputs.tf", "_locals.tf"]
  getModuleContent := fun s =>
    if s = dataSchema then Except.ok [w9block] else Except.ok []

/-- Witness for C9 at `w9runner`. -/
theorem C9_witness :
    emitted (checkTerraformRemoteState w9runner) = [] ∧
    isPanic (checkTerraformRemoteState w9runner) = false :=
  C9_remote_state_unreachable w9runner (by
    intro blocks hb b hbb
    have hb0 : w9runner.getModuleContent dataSchema = Except.ok [w9block] := rfl
    rw [hb0] at hb
    injection hb with hb3
    rw [← hb3] at hbb
    simp only [List.mem_singleton] at hbb
    rw [hbb]
    rfl)


/-- C10: `Check` is deterministic — two runners answering every query
identically produce the same result: same diagnostics, same messages and
locations, same order, same return value. -/
theorem C10_deterministic (r1 r2 : Runner)
    (hf : r1.getFiles = r2.getFiles)
    (hm : ∀ s, r1.getModuleContent s = r2.getModuleContent s) :
    Check r1 = Check r2 := by
  have k0 : checkFiles r1 = checkFiles r2 := by
    unfold checkFiles; rw [hf]
  have k1 : checkVariables r1 = checkVariables r2 := by
    unfold checkVariables; rw [hm variableSchema]
  have k2 : checkOutputs r1 = checkOutputs r2 := by
    unfold checkOutputs; rw [hm outputSchema]
  have k3 : checkProviders r1 = checkProviders r2 := by
    unfold checkProviders; rw [hm providerSchema]
  have k4 : checkTerraformBlock r1 = checkTerraformBlock r2 := by
    unfold checkTerraformBlock; rw [hm terraformSchema]
  have k5 : checkLocals r1 = checkLocals r2 := by
    unfold checkLocals; rw [hm localsSchema]
  have k6 : checkTerraformRemoteState r1 = checkTerraformRemoteState r2 := by
    unfold checkTerraformRemoteState; rw [hm dataSchema]
  show driverRun checkList r1 = driverRun checkList r2
  simp only [checkList, driverRun, k0, k1, k2, k3, k4, k5, k6]

/-- A variable block shared by the two C10 runners. -/
def w10var : Block :=
  { type := "variable", name := "x", labels := ["x"],
    defRange := { filename := "main.tf", start := { line := 1, column := 1, byte := 0 },
                  endPos := { line := 1, column := 13, byte := 12 } } }

/-- First C10 runner. -/
def w10a : Runner where
  getFiles := Except.ok ["_init.tf", "_variables.tf", "_outputs.tf", "_locals.tf"]
  getModuleContent := fun s =>
    if s = variableSchema then Except.ok [w10var] else Except.ok []

/-- Second C10 runner: written differently, answering every query the
same as `w10a`. -/
def w10b : Runner where
  getFiles := Except.ok ["_init.tf", "_variables.tf", "_outputs.tf", "_locals.tf"]
  getModuleContent := fun s =>
    if s = dataSchema then Except.ok []
    else if s = variableSchema then Except.ok [w10var]
    else Except.ok []

/-- Witness for C10 at the two observationally equal runners. -/
theorem C10_witness : Check w10a = Check w10b :=
  C10_deterministic w10a w10b rfl (by
    intro s
    by_cases h1 : s = variableSchema
    · subst h1; rfl
    · by_cases h2 : s = dataSchema
      · subst h2; rfl
      · show (if s = variableSchema then Except.ok [w10var] else Except.ok []) =
            (if s = dataSchema then Except.ok []
             else if s = variableSchema then Except.ok [w10var] else Except.ok [])
        rw [if_neg h1, if_neg h2])
